import Mathlib

/-!
Shallow embedding of the vectara-ingest indexing pipeline
(`core/utils.py` and `core/indexer.py`) for checking the repository's
natural-language specification.

Python strings are modelled as `List Char`.  The fragment of CPython's
`urllib.parse` used by `normalize_url` (`urlparse` / `ParseResult.geturl`)
is modelled after CPython 3.11 for inputs without bracketed IPv6 hosts
(CPython raises `ValueError` on unbalanced brackets and on some exotic
non-ASCII netlocs; those checks are omitted here and the concrete inputs
used below avoid them).
-/

abbrev PyStr := List Char

/-- Python slice test `s[:len(pat)] == pat` (the pattern starts `s`). -/
def hasPre (pat s : PyStr) : Bool :=
  s.take pat.length == pat

/-- Python substring containment `pat in s`. -/
def isSubstr (pat : PyStr) : PyStr → Bool
  | [] => hasPre pat []
  | c :: rest => hasPre pat (c :: rest) || isSubstr pat rest

/-- Python `c in s` for a single character. -/
def containsChar (c : Char) : PyStr → Bool
  | [] => false
  | a :: rest => a == c || containsChar c rest

/-- Left-to-right non-overlapping removal of every occurrence of
`"www."`, modelling `p.netloc.replace('www.', '')` from
`normalize_url` (utils.py line 42). -/
def replaceWww : PyStr → PyStr
  | 'w' :: 'w' :: 'w' :: '.' :: rest => replaceWww rest
  | c :: rest => c :: replaceWww rest
  | [] => []

/-- Index of the first occurrence of `c` (Python `s.find(c)`). -/
def findIdxChar (c : Char) : PyStr → Option Nat
  | [] => none
  | a :: rest => if a = c then some 0 else (findIdxChar c rest).map (· + 1)

/-- Index of the last occurrence of `c` (Python `s.rfind(c)`). -/
def rfindIdxChar (c : Char) (s : PyStr) : Option Nat :=
  (findIdxChar c s.reverse).map (fun k => s.length - 1 - k)

/-- Python `s.find(c, start)`. -/
def findIdxCharFrom (c : Char) (s : PyStr) (start : Nat) : Option Nat :=
  (findIdxChar c (s.drop start)).map (· + start)

/-- The characters CPython allows inside a URL scheme
(`urllib.parse.scheme_chars`). -/
def isSchemeChar (c : Char) : Bool :=
  c.isAlpha || c.isDigit || c == '+' || c == '-' || c == '.'

/-- CPython `urlsplit` scheme recognition: the text before the first
`:` is a scheme iff the colon is not first, the first character is an
ASCII letter and everything up to the colon is a scheme character; the
scheme is lowercased and removed from the remainder. -/
def splitScheme (url : PyStr) : PyStr × PyStr :=
  match findIdxChar ':' url with
  | none => ([], url)
  | some i =>
    if 0 < i ∧ (url.headD ' ').isAlpha = true ∧
        (url.take i).all isSchemeChar = true then
      ((url.take i).map Char.toLower, url.drop (i + 1))
    else ([], url)

def isNetlocDelim (c : Char) : Bool :=
  c == '/' || c == '?' || c == '#'

/-- CPython `_splitnetloc`: the netloc extends to the first `/`, `?`
or `#` after the leading `//` (which the caller has removed). -/
def splitNetloc (rest : PyStr) : PyStr × PyStr :=
  (rest.takeWhile (fun c => !isNetlocDelim c),
   rest.dropWhile (fun c => !isNetlocDelim c))

/-- Python `s.split(c, 1)` as used by `urlsplit` for `#` and `?`:
the text before the first occurrence and the text after it (the
second component is empty when `c` does not occur). -/
def splitOnceChar (c : Char) (s : PyStr) : PyStr × PyStr :=
  (s.takeWhile (fun a => !(a == c)), (s.dropWhile (fun a => !(a == c))).drop 1)

structure UrlParts where
  scheme : PyStr
  netloc : PyStr
  path : PyStr
  params : PyStr
  query : PyStr
  fragment : PyStr
deriving DecidableEq

/-- CPython removes tab, CR and LF from the URL before parsing
(`_UNSAFE_URL_BYTES_TO_REMOVE`). -/
def stripTabsNewlines (s : PyStr) : PyStr :=
  s.filter (fun c => !(c == '\t') && !(c == '\r') && !(c == '\n'))

/-- CPython 3.11 `urlsplit` first does
`url.lstrip(_WHATWG_C0_CONTROL_OR_SPACE)`: leading C0 control
characters and spaces (codepoints up to 0x20) are dropped. -/
def lstripControlSpace (s : PyStr) : PyStr :=
  s.dropWhile (fun c => c.toNat ≤ 32)

/-- CPython `urllib.parse.urlsplit` (brackets/NFKC validation omitted,
see the file header). -/
def pyUrlsplit (url0 : PyStr) : UrlParts :=
  let url1 := stripTabsNewlines (lstripControlSpace url0)
  let sr := splitScheme url1
  let nr := if sr.2.take 2 = ['/', '/'] then splitNetloc (sr.2.drop 2) else ([], sr.2)
  let fr := splitOnceChar '#' nr.2
  let qr := splitOnceChar '?' fr.1
  { scheme := sr.1, netloc := nr.1, path := qr.1,
    params := [], query := qr.2, fragment := fr.2 }

/-- CPython `_splitparams`: split `;params` off the last path
segment. -/
def splitParamsPath (path : PyStr) : PyStr × PyStr :=
  let i? :=
    if containsChar '/' path then
      match rfindIdxChar '/' path with
      | some j => findIdxCharFrom ';' path j
      | none => findIdxChar ';' path
    else findIdxChar ';' path
  match i? with
  | none => (path, [])
  | some i => (path.take i, path.drop (i + 1))

/-- CPython 3.11 `urllib.parse.uses_params`. -/
def usesParams : List PyStr :=
  ["", "ftp", "hdl", "prospero", "http", "imap", "https", "shttp", "rtsp",
   "rtsps", "rtspu", "sip", "sips", "mms", "sftp", "tel"].map String.toList

/-- CPython 3.11 `urllib.parse.uses_netloc`. -/
def usesNetloc : List PyStr :=
  ["", "ftp", "http", "gopher", "nntp", "telnet", "imap", "wais", "file",
   "mms", "https", "shttp", "snews", "prospero", "rtsp", "rtsps", "rtspu",
   "rsync", "svn", "svn+ssh", "sftp", "nfs", "git", "git+ssh", "ws",
   "wss"].map String.toList

/-- CPython `urllib.parse.urlparse`: params are split off the path
only when the scheme is in `uses_params`. -/
def pyUrlparse (url : PyStr) : UrlParts :=
  let sp := pyUrlsplit url
  if usesParams.contains sp.scheme ∧ containsChar ';' sp.path = true then
    let pr := splitParamsPath sp.path
    { sp with path := pr.1, params := pr.2 }
  else sp

/-- CPython 3.11 `urlunsplit` with the trailing `?query` / `#fragment`
steps included; `normalize_url` calls `geturl` with empty params,
query and fragment. -/
def pyUrlunsplit (scheme netloc path query fragment : PyStr) : PyStr :=
  let u1 :=
    if netloc ≠ [] ∨ (scheme ≠ [] ∧ usesNetloc.contains scheme ∧ path.take 2 ≠ ['/', '/']) then
      let p := if path ≠ [] ∧ path.take 1 ≠ ['/'] then '/' :: path else path
      '/' :: '/' :: (netloc ++ p)
    else path
  let u2 := if scheme ≠ [] then scheme ++ ':' :: u1 else u1
  let u3 := if query ≠ [] then u2 ++ '?' :: query else u2
  if fragment ≠ [] then u3 ++ '#' :: fragment else u3

def httpPre : PyStr := ['h', 't', 't', 'p', ':', '/', '/']

def schemeSep : PyStr := [':', '/', '/']

def wwwPat : PyStr := ['w', 'w', 'w', '.']

/-- `core/utils.py` `normalize_url` (lines 34-48): default the scheme
to `http` when `'://'` is absent, parse, delete every `"www."` from
the netloc, drop everything from `'?'` on in the path, and rebuild
the URL with empty params, query and fragment. -/
def normalize_url (url : PyStr) : PyStr :=
  let url1 := if isSubstr schemeSep url then url else httpPre ++ url
  let p := pyUrlparse url1
  let netloc := replaceWww p.netloc
  let path := p.path.takeWhile (fun a => !(a == '?'))
  pyUrlunsplit p.scheme netloc path [] []

/-!
### The indexing pipeline (`core/indexer.py`)

External effects (HTTP requests, the headless renderer, the extraction
libraries) are modelled as oracles: each effectful call site receives
its outcome from an environment value.  `PyResult.raised` stands for a
Python exception escaping the call.
-/

inductive PyResult (α : Type) where
  | raised
  | ok (val : α)
deriving DecidableEq

/-- Python `str.split(sep)` for a nonempty separator: auxiliary
fuelled recursion (left-to-right, non-overlapping). -/
def splitAllAux (sep : PyStr) : Nat → PyStr → PyStr → List PyStr
  | 0, acc, s => [acc.reverse ++ s]
  | fuel + 1, acc, s =>
    if sep ≠ [] ∧ hasPre sep s = true then
      acc.reverse :: splitAllAux sep fuel [] (s.drop sep.length)
    else
      match s with
      | [] => [acc.reverse]
      | c :: rest => splitAllAux sep fuel (c :: acc) rest

/-- Python `s.split(sep)` (all occurrences). -/
def pySplitAll (sep s : PyStr) : List PyStr :=
  splitAllAux sep (s.length + 1) [] s

/-- Python `str.endswith`. -/
def pyEndsWith (suf s : PyStr) : Bool :=
  s.drop (s.length - suf.length) == suf

/-- Python `str.lower` (ASCII). -/
def pyLowerStr (s : PyStr) : PyStr :=
  s.map Char.toLower

def apostrophe : Char := '\x27'

/-- Minimal model of `json.dumps` on a string-valued dict, enough to
carry `metadataJson` fields; an empty dict serializes to two braces
and, like Python, an empty dict is the only falsy dict. -/
def joinCommaSp : List PyStr → PyStr
  | [] => []
  | [x] => x
  | x :: y :: rest => x ++ ',' :: ' ' :: joinCommaSp (y :: rest)

def pyDumps (d : List (PyStr × PyStr)) : PyStr :=
  '\x7b' :: joinCommaSp
    (d.map (fun kv => '"' :: kv.1 ++ '"' :: ':' :: ' ' :: '"' :: kv.2 ++ ['"'])) ++ ['\x7d']

/-- One entry of the `document["section"]` list built by
`index_segments` (indexer.py line 359). -/
structure DocSection where
  text : PyStr
  metadataJson : PyStr
deriving DecidableEq

/-- The `document` dict submitted to `POST /v1/index`; `title` and
`metadataJson` are omitted (`none`) when falsy, exactly as the
`if title:` / `if doc_metadata:` guards do. -/
structure VecDocument where
  documentId : PyStr
  title : Option PyStr
  sections : List DocSection
  metadataJson : Option PyStr
deriving DecidableEq

/-- The document assembly of `index_segments`
(indexer.py lines 355-361). -/
def build_document (doc_id : PyStr) (parts : List PyStr)
    (metadatas : List (List (PyStr × PyStr)))
    (doc_metadata : List (PyStr × PyStr)) (title : PyStr) : VecDocument :=
  { documentId := doc_id
    title := if title = [] then none else some title
    sections := (parts.zip metadatas).map
      (fun pm => { text := pm.1, metadataJson := pyDumps pm.2 })
    metadataJson := if doc_metadata = [] then none else some (pyDumps doc_metadata) }

/-- Application-level status object of the `/v1/index` JSON response. -/
structure IndexStatus where
  code : PyStr
  statusDetail : PyStr
deriving DecidableEq

/-- HTTP response to the `/v1/index` POST: `jsonBody` is the parsed
`response.json()["status"]` (`.ok none` models a missing or falsy
`status`, `.raised` a body on which `response.json()` raises). -/
structure IndexHttpResp where
  status_code : Nat
  jsonBody : PyResult (Option IndexStatus)
deriving DecidableEq

/-- Responses the network gives to the (at most three) POSTs of one
`index_document` run: the initial submission, the `delete-doc` call
and the resubmission. -/
structure DocNet where
  firstPost : PyResult IndexHttpResp
  delPost : PyResult Nat
  secondPost : PyResult Unit
deriving DecidableEq

/-- Observable requests issued by `index_document`. -/
inductive ApiCall where
  | indexPost (doc : VecDocument)
  | deleteDoc (documentId : PyStr)
deriving DecidableEq

def alreadyCode : PyStr := "ALREADY_EXISTS".toList

def conflictCode : PyStr := "CONFLICT".toList

def okCode : PyStr := "OK".toList

def updateUnsupportedMsg : PyStr :=
  "Indexing doesn".toList ++ apostrophe :: "t support updating documents".toList

/-- indexer.py `index_document` (lines 364-415).  The first POST is
wrapped in `try/except` (exception gives `False`); `response.json()`,
the `delete_doc` POST and the resubmission POST are not wrapped, so an
exception there escapes (`.raised`).  On the conflict branch with
reindexing the function returns `True` without looking at either the
delete response or the resubmission response. -/
def index_document (reindex : Bool) (net : DocNet) (doc : VecDocument) :
    PyResult (Bool × List ApiCall) :=
  match net.firstPost with
  | .raised => .ok (false, [.indexPost doc])
  | .ok resp =>
    if resp.status_code ≠ 200 then .ok (false, [.indexPost doc])
    else
      match resp.jsonBody with
      | .raised => .raised
      | .ok st? =>
        let conflict :=
          match st? with
          | some st =>
            isSubstr alreadyCode st.code ||
              (isSubstr conflictCode st.code &&
                isSubstr updateUnsupportedMsg st.statusDetail)
          | none => false
        if conflict then
          if reindex then
            match net.delPost with
            | .raised => .raised
            | .ok _ =>
              match net.secondPost with
              | .raised => .raised
              | .ok _ =>
                .ok (true, [.indexPost doc, .deleteDoc doc.documentId, .indexPost doc])
          else .ok (false, [.indexPost doc])
        else
          match st? with
          | some st =>
            if isSubstr okCode st.code then .ok (true, [.indexPost doc])
            else .ok (false, [.indexPost doc])
          | none => .ok (false, [.indexPost doc])

/-- indexer.py `index_segments` (lines 351-362): build the document
dict and hand it to `index_document`. -/
def index_segments (reindex : Bool) (net : DocNet) (doc_id : PyStr)
    (parts : List PyStr) (metadatas : List (List (PyStr × PyStr)))
    (doc_metadata : List (PyStr × PyStr)) (title : PyStr) :
    PyResult (Bool × List ApiCall) :=
  index_document reindex net (build_document doc_id parts metadatas doc_metadata title)

/-- HTTP response to the multipart `/upload` POST of `index_file`;
`jsonDetails` is `response.json()['details']` (`.raised` when the body
cannot be parsed or lacks the key). -/
structure UploadResp where
  status_code : Nat
  jsonDetails : PyResult PyStr
deriving DecidableEq

/-- Responses to the (at most three) requests of one `index_file` run. -/
structure FileNet where
  firstUpload : PyResult UploadResp
  delPost : PyResult Nat
  secondUpload : PyResult Nat
deriving DecidableEq

/-- Observable requests issued by `index_file`: the upload POST
(with or without the `d=True` query parameter) and the delete call. -/
inductive FileCall where
  | upload (dTrue : Bool)
  | deleteDoc (documentId : PyStr)
deriving DecidableEq

def docIdSep : PyStr := "document id".toList

/-- indexer.py line 246:
`response.json()['details'].split('document id')[1].split("'")[1]`;
an out-of-range index raises `IndexError`. -/
def extract_doc_id (details : PyStr) : PyResult PyStr :=
  match (pySplitAll docIdSep details).get? 1 with
  | none => .raised
  | some s1 =>
    match (pySplitAll [apostrophe] s1).get? 1 with
    | none => .raised
    | some s2 => .ok s2

/-- indexer.py `index_file` (lines 217-263).  `fileExists` models the
`os.path.exists` probe.  Nothing in `index_file` is wrapped in
`try/except`, so any raising call escapes.  On a 409 with reindexing,
the document id is parsed from the error detail, the document is
deleted and the file re-uploaded; the result is `True` whether or not
the second upload succeeded. -/
def index_file (reindex : Bool) (fileExists : Bool) (net : FileNet) :
    PyResult (Bool × List FileCall) :=
  if fileExists = false then .ok (false, [])
  else
    match net.firstUpload with
    | .raised => .raised
    | .ok resp =>
      if resp.status_code = 409 then
        if reindex then
          match resp.jsonDetails with
          | .raised => .raised
          | .ok details =>
            match extract_doc_id details with
            | .raised => .raised
            | .ok did =>
              match net.delPost with
              | .raised => .raised
              | .ok _ =>
                match net.secondUpload with
                | .raised => .raised
                | .ok _ => .ok (true, [.upload true, .deleteDoc did, .upload false])
        else .ok (false, [.upload true])
      else if resp.status_code ≠ 200 then .ok (false, [.upload true])
      else .ok (true, [.upload true])

/-- Elements returned by `unstructured.partition` on the downloaded
PDF; `titleEl` models instances of
`unstructured.documents.elements.Title`, everything else is a
non-title element (`narrativeTextEl` is singled out because the spec
mentions it). -/
inductive PdfElement where
  | titleEl (text : PyStr)
  | narrativeTextEl (text : PyStr)
  | otherEl (text : PyStr)
deriving DecidableEq

/-- `str(element)`: the element's text. -/
def elemStr : PdfElement → PyStr
  | .titleEl t => t
  | .narrativeTextEl t => t
  | .otherEl t => t

/-- `type(t) == unstructured.documents.elements.Title`. -/
def isTitleEl : PdfElement → Bool
  | .titleEl _ => true
  | _ => false

/-- indexer.py line 300: the text parts of a PDF are the stringified
non-title elements. -/
def pdf_parts (elements : List PdfElement) : List PyStr :=
  (elements.filter (fun e => !isTitleEl e)).map elemStr

/-- indexer.py lines 301-302: the PDF title is the first title element
longer than 20 characters, else `"unknown"`. -/
def pdf_title (elements : List PdfElement) : PyStr :=
  (((elements.filter
      (fun e => isTitleEl e && decide (20 < (elemStr e).length))).map elemStr).headD
    "unknown".toList)

/-- utils.py `detect_language` (lines 62-71): the langdetect result,
falling back to `"en"` when detection raises or returns `None`. -/
def detect_language (r : PyResult (Option PyStr)) : PyStr :=
  match r with
  | .raised => "en".toList
  | .ok none => "en".toList
  | .ok (some l) => l

/-- Oracle environment for one `index_url` call.  Fields map to the
effectful call sites of indexer.py lines 274-345:

* `slug` - `slugify` (external library, pure);
* `htmlToText` - `core.utils.html_to_text` (BeautifulSoup, pure);
* `probe` - the initial `session.get` plus the `Content-Type` header
  lookup inside the first `try` (lines 280-285); `.ok (code, none)`
  models a missing header (`KeyError`, caught by the same `except`);
* `pdfElems` - the PDF download, `raise_for_status`, temp-file write
  and `partition` (lines 294-299), all inside the branch `try`;
* `mdContent` - the direct download, `raise_for_status` and UTF-8
  decode of lines 309-311 (no `try` around them);
* `mdConvert` - the docutils / markdown / nbconvert conversion of
  lines 312-319 (no `try` around them);
* `render` - `fetch_content_with_timeout` (line 326); `.raised` models
  the browser-relaunch path inside its `except` handler raising;
* `soupBody` - `BeautifulSoup(html).body`, returning the body text
  when a `<body>` tag exists;
* `detectRes` - the raw langdetect outcome on the given body text,
  fed to `detect_language`;
* `extract` - `get_content_and_title(html, url, lang)`; the title is
  `none` when goose3 yields `None` (line 345 then substitutes
  `"No Title"`);
* `docNet` - responses for the `index_document` submission. -/
structure UrlEnv where
  slug : PyStr → PyStr
  htmlToText : PyStr → PyStr
  probe : PyResult (Nat × Option PyStr)
  pdfElems : PyResult (List PdfElement)
  mdContent : PyResult PyStr
  mdConvert : PyStr → PyResult PyStr
  render : PyResult (PyStr × PyStr)
  soupBody : PyStr → Option PyStr
  detectRes : PyStr → PyResult (Option PyStr)
  extract : PyStr → PyStr → PyStr → PyResult (PyStr × Option PyStr)
  docNet : DocNet

/-- Result of one `index_url` call: the returned boolean, the value of
`self.detected_language` afterwards, and the document submitted to
`index_segments` (when control reached it). -/
structure UrlOutcome where
  success : Bool
  lang : PyStr
  submitted : Option VecDocument
deriving DecidableEq

def noTitleStr : PyStr := "No Title".toList

def appPdf : PyStr := "application/pdf".toList

def dotPdf : PyStr := ".pdf".toList

def dotMd : PyStr := ".md".toList

def dotRst : PyStr := ".rst".toList

def dotIpynb : PyStr := ".ipynb".toList

/-- indexer.py lines 344-349: submit the parts through
`index_segments` with per-part empty metadata, `slugify(url)` as the
document id and `"No Title"` replacing a `None` title. -/
def submit_parts (env : UrlEnv) (reindex : Bool) (url lang : PyStr)
    (parts : List PyStr) (title : Option PyStr)
    (metadata : List (PyStr × PyStr)) : PyResult UrlOutcome :=
  let doc := build_document (env.slug url) parts (List.replicate parts.length [])
    metadata (title.getD noTitleStr)
  match index_document reindex env.docNet doc with
  | .raised => .raised
  | .ok br => .ok { success := br.1, lang := lang, submitted := some doc }

/-- indexer.py `index_url` (lines 265-349).  `lang` is the value of
`self.detected_language` on entry.  The probe, the PDF branch and the
rendered-HTML branch catch their exceptions and return `False`; the
Markdown/RST/Notebook branch has no `try/except`, so a raising call
there escapes. -/
def index_url (env : UrlEnv) (reindex : Bool) (url lang : PyStr)
    (metadata : List (PyStr × PyStr)) : PyResult UrlOutcome :=
  match env.probe with
  | .raised => .ok { success := false, lang := lang, submitted := none }
  | .ok pr =>
    if pr.1 ≠ 200 then .ok { success := false, lang := lang, submitted := none }
    else
      match pr.2 with
      | none => .ok { success := false, lang := lang, submitted := none }
      | some content_type =>
        if content_type = appPdf ∨ pyEndsWith dotPdf url = true then
          match env.pdfElems with
          | .raised => .ok { success := false, lang := lang, submitted := none }
          | .ok elements =>
            submit_parts env reindex url lang (pdf_parts elements)
              (some (pdf_title elements)) metadata
        else if pyEndsWith dotMd url = true ∨ pyEndsWith dotRst url = true ∨
            pyEndsWith dotIpynb (pyLowerStr url) = true then
          match env.mdContent with
          | .raised => .raised
          | .ok dl =>
            match env.mdConvert dl with
            | .raised => .raised
            | .ok htmlContent =>
              let title := (pySplitAll ['/'] url).getLastD []
              let text := env.htmlToText htmlContent
              submit_parts env reindex url lang [text] (some title) metadata
        else
          match env.render with
          | .raised => .ok { success := false, lang := lang, submitted := none }
          | .ok ac =>
            if ac.2.length < 3 then
              .ok { success := false, lang := lang, submitted := none }
            else
              let lang2 :=
                if lang = [] then
                  match env.soupBody ac.2 with
                  | some bodyText => detect_language (env.detectRes bodyText)
                  | none => lang
                else lang
              match env.extract ac.2 ac.1 lang2 with
              | .raised => .ok { success := false, lang := lang2, submitted := none }
              | .ok tt => submit_parts env reindex ac.1 lang2 [tt.1] tt.2 metadata

/-- indexer.py `Indexer.__init__` line 148: per-instance language
cache. -/
structure IndexerState where
  detected_language : PyStr
deriving DecidableEq

def initIndexer : IndexerState :=
  { detected_language := [] }

/-!
### Concrete values used by the theorems below
-/

/-- Characters that leave a netloc intact under `urlsplit`: no netloc
delimiter and none of the characters CPython strips from a URL. -/
def goodHostChar (c : Char) : Prop :=
  c ≠ '/' ∧ c ≠ '?' ∧ c ≠ '#' ∧ c ≠ '\t' ∧ c ≠ '\r' ∧ c ≠ '\n'

/-- Characters that leave a path intact under `urlparse`: no query,
fragment or params delimiter and none of the stripped characters. -/
def goodPathChar (c : Char) : Prop :=
  c ≠ '?' ∧ c ≠ '#' ∧ c ≠ ';' ∧ c ≠ '\t' ∧ c ≠ '\r' ∧ c ≠ '\n'

instance (c : Char) : Decidable (goodHostChar c) := by
  unfold goodHostChar
  infer_instance

instance (c : Char) : Decidable (goodPathChar c) := by
  unfold goodPathChar
  infer_instance

def emptyDocNet : DocNet :=
  { firstPost := .raised, delPost := .raised, secondPost := .raised }

/-- A network whose `/v1/index` answers 200 / `OK`. -/
def okDocNet : DocNet :=
  { firstPost := .ok
      { status_code := 200, jsonBody := .ok (some { code := okCode, statusDetail := [] }) }
    delPost := .ok 200
    secondPost := .ok () }

/-- A network whose `/v1/index` answers 200 / `ALREADY_EXISTS`. -/
def conflictDocNet : DocNet :=
  { firstPost := .ok
      { status_code := 200, jsonBody := .ok (some { code := alreadyCode, statusDetail := [] }) }
    delPost := .ok 200
    secondPost := .ok () }

/-- A sample document. -/
def exDoc : VecDocument :=
  { documentId := ['d'], title := none, sections := [], metadataJson := none }

/-- Default oracle environment: every effect raises, every pure
library function is the identity-ish stub. -/
def baseUrlEnv : UrlEnv :=
  { slug := fun s => s
    htmlToText := fun s => s
    probe := .raised
    pdfElems := .raised
    mdContent := .raised
    mdConvert := fun _ => .raised
    render := .raised
    soupBody := fun _ => none
    detectRes := fun _ => .raised
    extract := fun _ _ _ => .raised
    docNet := emptyDocNet }

def htmlCT : PyStr := "text/html".toList

def plainCT : PyStr := "text/plain".toList

/-- Markdown URL whose (untried) download raises. -/
def envMdRaise : UrlEnv :=
  { baseUrlEnv with probe := .ok (200, some plainCT) }

def envPdfRaise : UrlEnv :=
  { baseUrlEnv with probe := .ok (200, some appPdf) }

def envRenderRaise : UrlEnv :=
  { baseUrlEnv with probe := .ok (200, some htmlCT) }

def envExtractRaise : UrlEnv :=
  { baseUrlEnv with
      probe := .ok (200, some htmlCT)
      render := .ok (['u'], ['a', 'b', 'c']) }

/-- PDF whose partition yields two non-title elements. -/
def envPdfTwo : UrlEnv :=
  { baseUrlEnv with
      probe := .ok (200, some appPdf)
      pdfElems := .ok [.otherEl ['a'], .otherEl ['b']]
      docNet := okDocNet }

def docTwoSec : VecDocument :=
  build_document ['u'] [['a'], ['b']] [[], []] [] "unknown".toList

/-- Rendered-HTML page whose extraction succeeds. -/
def envHtmlOne : UrlEnv :=
  { baseUrlEnv with
      probe := .ok (200, some htmlCT)
      render := .ok (['u'], ['a', 'b', 'c'])
      extract := fun _ _ _ => .ok (['t'], some ['T'])
      docNet := okDocNet }

def docOneSec : VecDocument :=
  build_document ['u'] [['t']] [[]] [] ['T']

/-- Markdown URL whose download and conversion succeed. -/
def envMdOk : UrlEnv :=
  { baseUrlEnv with
      probe := .ok (200, some plainCT)
      mdContent := .ok ['m']
      mdConvert := fun _ => .ok ['h']
      docNet := okDocNet }

def docMdOne : VecDocument :=
  build_document "a.md".toList [['h']] [[]] [] "a.md".toList

/-- Variant of `envHtmlOne` with a `<body>` and a working detector. -/
def envDetectSet : UrlEnv :=
  { envHtmlOne with
      soupBody := fun _ => some ['b']
      detectRes := fun _ => .ok (some ['f', 'r']) }

/-- The PDF of spec §8: a short `Title` and one narrative element. -/
def envPdfReport : UrlEnv :=
  { baseUrlEnv with
      probe := .ok (200, some appPdf)
      pdfElems := .ok
        [.titleEl "Report".toList, .narrativeTextEl "Body text over ten chars".toList]
      docNet := okDocNet }

def urlPdfReport : PyStr := "u.pdf".toList

def docPdfReport : VecDocument :=
  build_document urlPdfReport ["Body text over ten chars".toList] [[]] []
    "unknown".toList

/-- An `/upload` 409 response whose detail names the duplicate id. -/
def uploadConflictResp : UploadResp :=
  { status_code := 409
    jsonDetails := .ok
      ("upload failed: document id ".toList ++ apostrophe :: "abc".toList ++
        apostrophe :: " already exists".toList) }

/-- `index_file` network: 409 first, failing re-upload. -/
def fileConflictNet : FileNet :=
  { firstUpload := .ok uploadConflictResp
    delPost := .ok 200
    secondUpload := .ok 500 }

/-!
### Helper lemmas
-/

theorem takeWhile_append_all {p : Char → Bool} {a : PyStr} (b : PyStr)
    (h : ∀ c ∈ a, p c = true) :
    (a ++ b).takeWhile p = a ++ b.takeWhile p := by
  induction a with
  | nil => simp
  | cons c r ih =>
    have hc : p c = true := h c (List.mem_cons_self c r)
    simp only [List.cons_append, List.takeWhile_cons, hc, if_true]
    exact congrArg (c :: ·) (ih (fun x hx => h x (List.mem_cons_of_mem c hx)))

theorem dropWhile_append_all {p : Char → Bool} {a : PyStr} (b : PyStr)
    (h : ∀ c ∈ a, p c = true) :
    (a ++ b).dropWhile p = b.dropWhile p := by
  induction a with
  | nil => simp
  | cons c r ih =>
    have hc : p c = true := h c (List.mem_cons_self c r)
    simp only [List.cons_append, List.dropWhile_cons, hc, if_true]
    exact ih (fun x hx => h x (List.mem_cons_of_mem c hx))

theorem takeWhile_all_self {p : Char → Bool} {a : PyStr}
    (h : ∀ c ∈ a, p c = true) : a.takeWhile p = a := by
  have := takeWhile_append_all (p := p) (a := a) [] h
  simpa using this

theorem dropWhile_all_nil {p : Char → Bool} {a : PyStr}
    (h : ∀ c ∈ a, p c = true) : a.dropWhile p = [] := by
  have := dropWhile_append_all (p := p) (a := a) [] h
  simpa using this

theorem containsChar_eq_false {t : Char} {l : PyStr}
    (h : ∀ c ∈ l, c ≠ t) : containsChar t l = false := by
  induction l with
  | nil => rfl
  | cons a r ih =>
    have ha : (a == t) = false := by
      simpa using h a (List.mem_cons_self a r)
    simp [containsChar, ha, ih (fun x hx => h x (List.mem_cons_of_mem a hx))]

theorem hasPre_append (pat b : PyStr) : hasPre pat (pat ++ b) = true := by
  simp [hasPre, List.take_left]

theorem isSubstr_of_hasPre {pat s : PyStr} (h : hasPre pat s = true) :
    isSubstr pat s = true := by
  cases s with
  | nil => simpa [isSubstr] using h
  | cons c r => simp [isSubstr, h]

theorem isSubstr_append_mid (pat a b : PyStr) :
    isSubstr pat (a ++ (pat ++ b)) = true := by
  induction a with
  | nil =>
    simpa using isSubstr_of_hasPre (hasPre_append pat b)
  | cons c r ih =>
    simp [isSubstr, ih]

theorem cons_of_take_one {path : PyStr} {c : Char} (h : path.take 1 = [c]) :
    ∃ t, path = c :: t := by
  cases path with
  | nil => simp at h
  | cons a t =>
    simp [List.take] at h
    exact ⟨t, by rw [h]⟩

theorem mem_replaceWww {c : Char} : ∀ {s : PyStr}, c ∈ replaceWww s → c ∈ s := by
  intro s
  induction s using replaceWww.induct with
  | case1 rest ih =>
    intro h
    rw [replaceWww] at h
    have := ih h
    simp [this]
  | case2 a rest hne ih =>
    intro h
    have heq : replaceWww (a :: rest) = a :: replaceWww rest := by
      rw [replaceWww]
      exact hne
    rw [heq] at h
    rcases List.mem_cons.mp h with h | h
    · simp [h]
    · simp [ih h]
  | case3 =>
    intro h
    rw [replaceWww] at h
    exact h

theorem replaceWww_eq_self {s : PyStr} (h : isSubstr wwwPat s = false) :
    replaceWww s = s := by
  induction s using replaceWww.induct with
  | case1 rest ih =>
    exfalso
    have : hasPre wwwPat ('w' :: 'w' :: 'w' :: '.' :: rest) = true := by
      simp [hasPre, wwwPat]
    simp [isSubstr, this] at h
  | case2 a rest hne ih =>
    have hr : isSubstr wwwPat rest = false := by
      rcases Bool.or_eq_false_iff.mp (by simpa [isSubstr] using h) with ⟨_, hr⟩
      exact hr
    have heq : replaceWww (a :: rest) = a :: replaceWww rest := by
      rw [replaceWww]
      exact hne
    rw [heq, ih hr]
  | case3 => rfl

theorem normalize_url_http (host path : PyStr)
    (hh : ∀ c ∈ host, goodHostChar c)
    (hp : ∀ c ∈ path, goodPathChar c)
    (hp0 : path = [] ∨ path.take 1 = ['/'])
    (hne : replaceWww host ≠ []) :
    normalize_url (httpPre ++ host ++ path) = httpPre ++ replaceWww host ++ path := by
  have hsub : isSubstr schemeSep (httpPre ++ host ++ path) = true := by
    have := isSubstr_append_mid schemeSep ['h', 't', 't', 'p'] (host ++ path)
    simpa [httpPre, schemeSep, List.append_assoc] using this
  have hstrip : stripTabsNewlines (lstripControlSpace (httpPre ++ host ++ path))
      = httpPre ++ host ++ path := by
    have h1 : lstripControlSpace (httpPre ++ host ++ path) = httpPre ++ host ++ path := by
      simp [lstripControlSpace, httpPre, List.dropWhile]
    rw [h1]
    have h2 : ∀ c ∈ host ++ path,
        (!(c == '\t') && !(c == '\r') && !(c == '\n')) = true := by
      intro c hc
      rcases List.mem_append.mp hc with hc | hc
      · rcases hh c hc with ⟨_, _, _, h4, h5, h6⟩
        simp [h4, h5, h6]
      · rcases hp c hc with ⟨_, _, _, h4, h5, h6⟩
        simp [h4, h5, h6]
    simp only [stripTabsNewlines, List.append_assoc, List.filter_append]
    rw [List.filter_eq_self.mpr (by decide),
        List.filter_eq_self.mpr (fun c hc => h2 c (List.mem_append_left _ hc)),
        List.filter_eq_self.mpr (fun c hc => h2 c (List.mem_append_right _ hc))]
  have hscheme : splitScheme (httpPre ++ host ++ path)
      = (['h', 't', 't', 'p'], '/' :: '/' :: (host ++ path)) := rfl
  have hnet : splitNetloc (host ++ path) = (host, path) := by
    have hhost : ∀ c ∈ host, (!isNetlocDelim c) = true := by
      intro c hc
      rcases hh c hc with ⟨h1, h2, h3, _, _, _⟩
      simp [isNetlocDelim, h1, h2, h3]
    have hpath : path.takeWhile (fun c => !isNetlocDelim c) = []
        ∧ path.dropWhile (fun c => !isNetlocDelim c) = path := by
      rcases hp0 with h | h
      · subst h; simp
      · obtain ⟨t, rfl⟩ := cons_of_take_one h
        constructor
        · simp [List.takeWhile_cons, isNetlocDelim]
        · simp [List.dropWhile_cons, isNetlocDelim]
    rw [splitNetloc, takeWhile_append_all path hhost, dropWhile_append_all path hhost,
        hpath.1, hpath.2, List.append_nil]
  have hpathall : ∀ (d : Char), d = '#' ∨ d = '?' →
      path.takeWhile (fun a => !(a == d)) = path
        ∧ path.dropWhile (fun a => !(a == d)) = [] := by
    intro d hd
    have hall : ∀ c ∈ path, (!(c == d)) = true := by
      intro c hc
      rcases hp c hc with ⟨h1, h2, _, _, _, _⟩
      rcases hd with rfl | rfl
      · simp [h2]
      · simp [h1]
    exact ⟨takeWhile_all_self hall, dropWhile_all_nil hall⟩
  have hhash : splitOnceChar '#' path = (path, []) := by
    rw [splitOnceChar, (hpathall '#' (Or.inl rfl)).1, (hpathall '#' (Or.inl rfl)).2]
    rfl
  have hquest : splitOnceChar '?' path = (path, []) := by
    rw [splitOnceChar, (hpathall '?' (Or.inr rfl)).1, (hpathall '?' (Or.inr rfl)).2]
    rfl
  have hstripA : stripTabsNewlines (lstripControlSpace (httpPre ++ (host ++ path)))
      = httpPre ++ (host ++ path) := by
    simpa [List.append_assoc] using hstrip
  have hschemeA : splitScheme (httpPre ++ (host ++ path))
      = (['h', 't', 't', 'p'], '/' :: '/' :: (host ++ path)) := rfl
  have hsplitres : pyUrlsplit (httpPre ++ host ++ path)
      = ⟨['h', 't', 't', 'p'], host, path, [], [], []⟩ := by
    simp [pyUrlsplit, hstripA, hschemeA, hnet, hhash, hquest]
  have hsemi : containsChar ';' path = false :=
    containsChar_eq_false (fun c hc => (hp c hc).2.2.1)
  have hsplitresA : pyUrlsplit (httpPre ++ (host ++ path))
      = ⟨['h', 't', 't', 'p'], host, path, [], [], []⟩ := by
    rw [← List.append_assoc]
    exact hsplitres
  have hparse : pyUrlparse (httpPre ++ host ++ path)
      = ⟨['h', 't', 't', 'p'], host, path, [], [], []⟩ := by
    simp [pyUrlparse, hsplitresA, hsemi]
  have hq2 : path.takeWhile (fun a => !(a == '?')) = path :=
    (hpathall '?' (Or.inr rfl)).1
  have hpslash : (if path ≠ [] ∧ path.take 1 ≠ ['/'] then '/' :: path else path) = path := by
    rcases hp0 with h | h
    · simp [h]
    · rw [if_neg]
      intro hcon
      exact hcon.2 h
  have huns : pyUrlunsplit ['h', 't', 't', 'p'] (replaceWww host) path [] []
      = httpPre ++ replaceWww host ++ path := by
    rw [pyUrlunsplit]
    simp only [if_pos (Or.inl hne), hpslash]
    rw [if_pos (by simp : (['h', 't', 't', 'p'] : PyStr) ≠ [])]
    rw [if_neg (by simp : ¬(([] : PyStr) ≠ [])), if_neg (by simp : ¬(([] : PyStr) ≠ []))]
    simp [httpPre, List.append_assoc]
  rw [normalize_url]
  rw [if_pos hsub]
  rw [hparse]
  dsimp only
  rw [hq2]
  exact huns

theorem map_fst_zip_take {α β : Type} :
    ∀ (as : List α) (bs : List β), (as.zip bs).map Prod.fst = as.take bs.length
  | [], _ => by simp
  | _ :: _, [] => by simp
  | a :: as, b :: bs => by simp [map_fst_zip_take as bs]

/-!
### Claims
-/

/-- Claim C7, counterexample: the claim says a `www.` occurring
elsewhere in the host (as in `en.www.example.com`) is preserved, but
`normalize_url` deletes it. -/
theorem normalize_url_inner_www_removed :
    normalize_url "http://en.www.example.com/a".toList = "http://en.example.com/a".toList
      ∧ "http://en.example.com/a".toList ≠ "http://en.www.example.com/a".toList := by
  constructor
  · decide
  · decide

/-- Claim C7 (amended): `normalize_url` removes every left-to-right
non-overlapping occurrence of `"www."` from the host - not only a
leading label - and leaves the other host characters unchanged, for a
URL `http://host path` whose host has no delimiter or
stripped characters and still parses back (nonempty after removal). -/
theorem normalize_url_strips_all_www (host path : PyStr)
    (hh : ∀ c ∈ host, goodHostChar c)
    (hp : ∀ c ∈ path, goodPathChar c)
    (hp0 : path = [] ∨ path.take 1 = ['/'])
    (hne : replaceWww host ≠ []) :
    normalize_url (httpPre ++ host ++ path) = httpPre ++ replaceWww host ++ path :=
  normalize_url_http host path hh hp hp0 hne

/-- Witness for C7: `en.www.example.com` loses its inner `www.`. -/
theorem normalize_url_strips_all_www_witness :
    normalize_url (httpPre ++ "en.www.example.com".toList ++ "/a".toList)
      = httpPre ++ replaceWww "en.www.example.com".toList ++ "/a".toList :=
  normalize_url_strips_all_www "en.www.example.com".toList "/a".toList
    (by decide) (by decide) (Or.inr (by decide)) (by decide)

/-- Claim C6, counterexample: `normalize_url` is not idempotent; on
`"a?b://c"` the first pass yields `"a"` (the query hid the only
`'://'`), and the second pass then prepends `"http://"`. -/
theorem normalize_url_not_idempotent :
    normalize_url (normalize_url "a?b://c".toList) ≠ normalize_url "a?b://c".toList := by
  decide

/-- Claim C6 (amended): `normalize_url` is idempotent on URLs
`http://host path` whose host and path carry no parsing delimiters
and whose host, after the `www.` deletions, is nonempty and contains
no further `"www."` occurrence. -/
theorem normalize_url_idempotent_wellformed (host path : PyStr)
    (hh : ∀ c ∈ host, goodHostChar c)
    (hp : ∀ c ∈ path, goodPathChar c)
    (hp0 : path = [] ∨ path.take 1 = ['/'])
    (hne : replaceWww host ≠ [])
    (hnw : isSubstr wwwPat (replaceWww host) = false) :
    normalize_url (normalize_url (httpPre ++ host ++ path))
      = normalize_url (httpPre ++ host ++ path) := by
  have hh2 : ∀ c ∈ replaceWww host, goodHostChar c := fun c hc => hh c (mem_replaceWww hc)
  have heq := replaceWww_eq_self hnw
  rw [normalize_url_http host path hh hp hp0 hne,
      normalize_url_http (replaceWww host) path hh2 hp hp0 (by rw [heq]; exact hne), heq]

/-- Witness for C6: `http://www.example.com/a` is a fixed point after
one normalization. -/
theorem normalize_url_idempotent_wellformed_witness :
    normalize_url (normalize_url (httpPre ++ "www.example.com".toList ++ "/a".toList))
      = normalize_url (httpPre ++ "www.example.com".toList ++ "/a".toList) :=
  normalize_url_idempotent_wellformed "www.example.com".toList "/a".toList
    (by decide) (by decide) (Or.inr (by decide)) (by decide) (by decide)

/-- Claim C1: with reindexing enabled, a 200 response whose
application status signals `ALREADY_EXISTS` (or `CONFLICT` together
with the update-unsupported detail) makes `index_document` issue
exactly one `delete-doc` call for the document id followed by exactly
one resubmission POST, and return `True` no matter what the delete
and resubmission requests answer. -/
theorem index_document_reindex_conflict
    (net : DocNet) (doc : VecDocument) (resp : IndexHttpResp) (st : IndexStatus) (d : Nat)
    (h1 : net.firstPost = .ok resp) (h2 : resp.status_code = 200)
    (h3 : resp.jsonBody = .ok (some st))
    (h4 : (isSubstr alreadyCode st.code ||
        (isSubstr conflictCode st.code && isSubstr updateUnsupportedMsg st.statusDetail)) = true)
    (h5 : net.delPost = .ok d) (h6 : net.secondPost = .ok ()) :
    index_document true net doc
      = .ok (true, [.indexPost doc, .deleteDoc doc.documentId, .indexPost doc]) := by
  simp [index_document, h1, h2, h3, h4, h5, h6]

/-- Witness for C1. -/
theorem index_document_reindex_conflict_witness :
    index_document true conflictDocNet exDoc
      = .ok (true, [.indexPost exDoc, .deleteDoc exDoc.documentId, .indexPost exDoc]) :=
  index_document_reindex_conflict conflictDocNet exDoc
    { status_code := 200, jsonBody := .ok (some { code := alreadyCode, statusDetail := [] }) }
    { code := alreadyCode, statusDetail := [] } 200 rfl rfl rfl (by decide) rfl rfl

/-- Claim C8: with reindexing disabled, a 200 response whose
application status signals `ALREADY_EXISTS` makes `index_document`
return `False` having issued only the one submission POST - no
delete call and no resubmission. -/
theorem index_document_no_reindex_conflict
    (net : DocNet) (doc : VecDocument) (resp : IndexHttpResp) (st : IndexStatus)
    (h1 : net.firstPost = .ok resp) (h2 : resp.status_code = 200)
    (h3 : resp.jsonBody = .ok (some st))
    (h4 : isSubstr alreadyCode st.code = true) :
    index_document false net doc = .ok (false, [.indexPost doc]) := by
  simp [index_document, h1, h2, h3, h4]

/-- Witness for C8. -/
theorem index_document_no_reindex_conflict_witness :
    index_document false conflictDocNet exDoc = .ok (false, [.indexPost exDoc]) :=
  index_document_no_reindex_conflict conflictDocNet exDoc
    { status_code := 200, jsonBody := .ok (some { code := alreadyCode, statusDetail := [] }) }
    { code := alreadyCode, statusDetail := [] } rfl rfl rfl (by decide)

/-- Claim C4: when the first upload answers HTTP 409 and reindexing is
enabled, `index_file` deletes the duplicate and re-uploads; even when
that second upload fails (status not 200) it still returns `True`. -/
theorem index_file_conflict_lenient
    (net : FileNet) (resp : UploadResp) (details did : PyStr) (d c2 : Nat)
    (h1 : net.firstUpload = .ok resp) (h2 : resp.status_code = 409)
    (h3 : resp.jsonDetails = .ok details)
    (h4 : extract_doc_id details = .ok did)
    (h5 : net.delPost = .ok d) (h6 : net.secondUpload = .ok c2) (h7 : c2 ≠ 200) :
    index_file true true net = .ok (true, [.upload true, .deleteDoc did, .upload false]) := by
  simp [index_file, h1, h2, h3, h4, h5, h6]

/-- Witness for C4: a 409 with a parseable detail, then a 500 on the
re-upload, still reported as success. -/
theorem index_file_conflict_lenient_witness :
    index_file true true fileConflictNet
      = .ok (true, [.upload true, .deleteDoc "abc".toList, .upload false]) :=
  index_file_conflict_lenient fileConflictNet uploadConflictResp
    ("upload failed: document id ".toList ++ apostrophe :: "abc".toList ++
      apostrophe :: " already exists".toList)
    "abc".toList 200 500 rfl rfl rfl (by decide) rfl rfl (by decide)

/-- Claim C9: `index_segments` submits exactly the document built by
`build_document`, whose section list is the `zip` of parts and
metadatas: there are `min |parts| |metadatas|` sections, in part
order, and when metadatas is shorter the trailing parts are silently
dropped. -/
theorem index_segments_zip_min (reindex : Bool) (net : DocNet) (doc_id : PyStr)
    (parts : List PyStr) (metadatas : List (List (PyStr × PyStr)))
    (doc_metadata : List (PyStr × PyStr)) (title : PyStr) :
    index_segments reindex net doc_id parts metadatas doc_metadata title
        = index_document reindex net (build_document doc_id parts metadatas doc_metadata title)
      ∧ (build_document doc_id parts metadatas doc_metadata title).sections.length
          = min parts.length metadatas.length
      ∧ (build_document doc_id parts metadatas doc_metadata title).sections.map DocSection.text
          = parts.take metadatas.length := by
  refine ⟨rfl, ?_, ?_⟩
  · simp [build_document]
  · simp only [build_document, List.map_map]
    have : (DocSection.text ∘ fun pm : PyStr × List (PyStr × PyStr) =>
        DocSection.mk pm.1 (pyDumps pm.2)) = Prod.fst := rfl
    rw [this, map_fst_zip_take]

theorem submit_parts_spec (env : UrlEnv) (reindex : Bool) (url lang : PyStr)
    (parts : List PyStr) (title : Option PyStr) (metadata : List (PyStr × PyStr))
    (out : UrlOutcome)
    (h : submit_parts env reindex url lang parts title metadata = .ok out) :
    out.lang = lang ∧ out.submitted = some (build_document (env.slug url) parts
      (List.replicate parts.length []) metadata (title.getD noTitleStr)) := by
  simp only [submit_parts] at h
  rcases hidx : index_document reindex env.docNet (build_document (env.slug url) parts
      (List.replicate parts.length []) metadata (title.getD noTitleStr)) with _ | br
  · rw [hidx] at h
    exact absurd h (by simp)
  · rw [hidx] at h
    cases h
    exact ⟨rfl, rfl⟩

/-- Claim C2, counterexample: in the Markdown/RST/Notebook branch the
download and conversion are not inside any `try/except`, so an
exception raised there propagates out of `index_url` instead of
becoming `False`. -/
theorem index_url_md_branch_raises :
    index_url envMdRaise true "a.md".toList [] [] = .raised := by
  decide

/-- Claim C2 (amended): exceptions during fetching and extraction are
caught and turned into `False` in the probe, the PDF branch and the
rendered-HTML branch (both rendering and extraction) - but not in the
Markdown/RST/Notebook branch, where they propagate. -/
theorem index_url_catches_fetch_errors (env : UrlEnv) (reindex : Bool)
    (url lang : PyStr) (metadata : List (PyStr × PyStr)) :
    (env.probe = .raised →
      index_url env reindex url lang metadata
        = .ok { success := false, lang := lang, submitted := none })
    ∧ (∀ ct, env.probe = .ok (200, some ct) →
        (ct = appPdf ∨ pyEndsWith dotPdf url = true) →
        env.pdfElems = .raised →
        index_url env reindex url lang metadata
          = .ok { success := false, lang := lang, submitted := none })
    ∧ (∀ ct, env.probe = .ok (200, some ct) →
        ¬(ct = appPdf ∨ pyEndsWith dotPdf url = true) →
        ¬(pyEndsWith dotMd url = true ∨ pyEndsWith dotRst url = true ∨
          pyEndsWith dotIpynb (pyLowerStr url) = true) →
        env.render = .raised →
        index_url env reindex url lang metadata
          = .ok { success := false, lang := lang, submitted := none })
    ∧ (∀ ct aurl html, env.probe = .ok (200, some ct) →
        ¬(ct = appPdf ∨ pyEndsWith dotPdf url = true) →
        ¬(pyEndsWith dotMd url = true ∨ pyEndsWith dotRst url = true ∨
          pyEndsWith dotIpynb (pyLowerStr url) = true) →
        env.render = .ok (aurl, html) →
        ¬ html.length < 3 →
        (∀ a b c, env.extract a b c = .raised) →
        ∃ l2, index_url env reindex url lang metadata
          = .ok { success := false, lang := l2, submitted := none }) := by
  refine ⟨?_, ?_, ?_, ?_⟩
  · intro hpr
    simp [index_url, hpr]
  · intro ct hpr hb hre
    simp [index_url, hpr, hb, hre]
  · intro ct hpr hb hm hre
    simp [index_url, hpr, hb, hm, hre]
  · intro ct aurl html hpr hb hm hre hlen hex
    refine ⟨if lang = [] then
        (match env.soupBody html with
          | some bodyText => detect_language (env.detectRes bodyText)
          | none => lang)
      else lang, ?_⟩
    simp [index_url, hpr, hb, hm, hre, hlen, hex]

/-- Witness for C2's amended theorem: each catching branch at a
concrete environment. -/
theorem index_url_catches_fetch_errors_witness :
    index_url baseUrlEnv true ['u'] ['e'] []
        = .ok { success := false, lang := ['e'], submitted := none }
    ∧ index_url envPdfRaise true ['u'] ['e'] []
        = .ok { success := false, lang := ['e'], submitted := none }
    ∧ index_url envRenderRaise true ['u'] ['e'] []
        = .ok { success := false, lang := ['e'], submitted := none }
    ∧ (∃ l2, index_url envExtractRaise true ['u'] ['e'] []
        = .ok { success := false, lang := l2, submitted := none }) := by
  refine ⟨(index_url_catches_fetch_errors baseUrlEnv true ['u'] ['e'] []).1 rfl,
    (index_url_catches_fetch_errors envPdfRaise true ['u'] ['e'] []).2.1
      appPdf rfl (Or.inl rfl) rfl,
    (index_url_catches_fetch_errors envRenderRaise true ['u'] ['e'] []).2.2.1
      htmlCT rfl (by decide) (by decide) rfl,
    (index_url_catches_fetch_errors envExtractRaise true ['u'] ['e'] []).2.2.2
      htmlCT ['u'] ['a', 'b', 'c'] rfl (by decide) (by decide) rfl (by decide)
      (fun _ _ _ => rfl)⟩

/-- Claim C3, counterexample: a PDF partitioned into two non-title
elements is submitted as a document with two sections, not one. -/
theorem index_url_pdf_two_sections :
    index_url envPdfTwo true ['u'] [] []
        = .ok { success := true, lang := [], submitted := some docTwoSec }
    ∧ docTwoSec.sections.length ≠ 1 := by
  constructor
  · decide
  · decide

/-- Claim C3 (amended): outside the PDF branch, every document
`index_url` submits has exactly one section, and that single section
holds the whole extracted text - the `html_to_text` conversion result
in the Markdown/RST/Notebook branch, the extractor's returned text in
the rendered-HTML branch; the PDF branch instead emits one section
per non-title element. -/
theorem index_url_single_section_non_pdf
    (env : UrlEnv) (reindex : Bool) (url lang : PyStr)
    (metadata : List (PyStr × PyStr)) (out : UrlOutcome) (doc : VecDocument) :
    ((∀ pr, env.probe = .ok pr → ∀ ct, pr.2 = some ct →
        ¬(ct = appPdf ∨ pyEndsWith dotPdf url = true)) →
      index_url env reindex url lang metadata = .ok out →
      out.submitted = some doc →
      doc.sections.length = 1)
    ∧ (∀ ct dl htmlContent,
        env.probe = .ok (200, some ct) →
        ¬(ct = appPdf ∨ pyEndsWith dotPdf url = true) →
        (pyEndsWith dotMd url = true ∨ pyEndsWith dotRst url = true ∨
          pyEndsWith dotIpynb (pyLowerStr url) = true) →
        env.mdContent = .ok dl →
        env.mdConvert dl = .ok htmlContent →
        index_url env reindex url lang metadata = .ok out →
        out.submitted = some doc →
        doc.sections.map DocSection.text = [env.htmlToText htmlContent])
    ∧ (∀ ct aurl html text title2,
        env.probe = .ok (200, some ct) →
        ¬(ct = appPdf ∨ pyEndsWith dotPdf url = true) →
        ¬(pyEndsWith dotMd url = true ∨ pyEndsWith dotRst url = true ∨
          pyEndsWith dotIpynb (pyLowerStr url) = true) →
        env.render = .ok (aurl, html) →
        (∀ l, env.extract html aurl l = .ok (text, title2)) →
        index_url env reindex url lang metadata = .ok out →
        out.submitted = some doc →
        doc.sections.map DocSection.text = [text]) := by
  refine ⟨?_, ?_, ?_⟩
  · intro hnp h hs
    simp only [index_url] at h
    split at h
    · cases h; simp at hs
    · split at h
      · cases h; simp at hs
      · split at h
        · cases h; simp at hs
        · rename_i x0 pr hprobe hcode x1 ct hcto
          split at h
          · rename_i hcond
            exact absurd hcond (hnp pr hprobe ct hcto)
          · split at h
            · split at h
              · cases h
              · split at h
                · cases h
                · obtain ⟨-, hsub2⟩ := submit_parts_spec _ _ _ _ _ _ _ _ h
                  rw [hsub2] at hs
                  cases hs
                  simp [build_document]
            · split at h
              · cases h; simp at hs
              · split at h
                · cases h; simp at hs
                · split at h
                  · cases h; simp at hs
                  · obtain ⟨-, hsub2⟩ := submit_parts_spec _ _ _ _ _ _ _ _ h
                    rw [hsub2] at hs
                    cases hs
                    simp [build_document]
  · intro ct dl htmlContent hpr hb hm hmc hcv h hs
    simp [index_url, hpr, hb, hm, hmc, hcv] at h
    obtain ⟨-, hsub2⟩ := submit_parts_spec _ _ _ _ _ _ _ _ h
    rw [hsub2] at hs
    cases hs
    simp [build_document]
  · intro ct aurl html text title2 hpr hb hm hre hex h hs
    simp [index_url, hpr, hb, hm, hre, hex] at h
    split at h
    · cases h; simp at hs
    · obtain ⟨-, hsub2⟩ := submit_parts_spec _ _ _ _ _ _ _ _ h
      rw [hsub2] at hs
      cases hs
      simp [build_document]

/-- Witness for C3's amended theorem: a rendered-HTML run submits a
one-section document whose section text is the extracted text, and a
Markdown run submits the whole converted text as its one section. -/
theorem index_url_single_section_non_pdf_witness :
    docOneSec.sections.length = 1
    ∧ docMdOne.sections.map DocSection.text = [['h']]
    ∧ docOneSec.sections.map DocSection.text = [['t']] := by
  refine ⟨?_, ?_, ?_⟩
  · exact (index_url_single_section_non_pdf envHtmlOne true ['u'] [] []
      { success := true, lang := [], submitted := some docOneSec } docOneSec).1
      (fun pr hpr ct hcto => by
        rw [show pr = (200, some htmlCT) from by
          simpa [envHtmlOne, baseUrlEnv] using hpr.symm] at hcto
        rw [show ct = htmlCT from by simpa using hcto.symm]
        decide)
      (by decide) rfl
  · exact (index_url_single_section_non_pdf envMdOk true "a.md".toList [] []
      { success := true, lang := [], submitted := some docMdOne } docMdOne).2.1
      plainCT ['m'] ['h'] rfl (by decide) (by decide) rfl rfl (by decide) rfl
  · exact (index_url_single_section_non_pdf envHtmlOne true ['u'] [] []
      { success := true, lang := [], submitted := some docOneSec } docOneSec).2.2
      htmlCT ['u'] ['a', 'b', 'c'] ['t'] (some ['T']) rfl (by decide) (by decide) rfl
      (fun _ => rfl) (by decide) rfl

/-- Claim C5, counterexample: on the element sequence
`[Title "Report", NarrativeText "Body text over ten chars"]` the PDF
title is `"unknown"` - not `"Report"` as the claim asserts - because
`"Report"` has only 6 characters and the code keeps only title
elements longer than 20. -/
theorem pdf_title_report_is_unknown :
    pdf_title [PdfElement.titleEl "Report".toList,
        PdfElement.narrativeTextEl "Body text over ten chars".toList] ≠ "Report".toList
    ∧ pdf_title [PdfElement.titleEl "Report".toList,
        PdfElement.narrativeTextEl "Body text over ten chars".toList] = "unknown".toList := by
  constructor
  · decide
  · decide

/-- Claim C5 (amended): on that PDF, `index_url` submits a document
titled `"unknown"` (no title element exceeds 20 characters) whose text
parts are exactly the narrative text. -/
theorem index_url_pdf_report_extraction :
    index_url envPdfReport true urlPdfReport [] []
        = .ok { success := true, lang := [], submitted := some docPdfReport }
    ∧ docPdfReport.title = some "unknown".toList
    ∧ docPdfReport.sections.map DocSection.text = ["Body text over ten chars".toList] := by
  refine ⟨by decide, by decide, by decide⟩

/-- Claim C10: `detected_language` starts empty; while it is empty, an
`index_url` call that renders HTML with a `<body>` sets it to the
detector's result; once non-empty it is never recomputed - the result
does not depend on the detector at all and the stored value is passed
through unchanged. -/
theorem detected_language_sticky :
    initIndexer.detected_language = []
    ∧ (∀ env reindex url lang metadata out, lang ≠ [] →
        index_url env reindex url lang metadata = .ok out → out.lang = lang)
    ∧ (∀ (env : UrlEnv) d1 d2 reindex url lang metadata, lang ≠ [] →
        index_url ({ env with detectRes := d1 } : UrlEnv) reindex url lang metadata
          = index_url ({ env with detectRes := d2 } : UrlEnv) reindex url lang metadata)
    ∧ (∀ env reindex url metadata ct aurl html bodyText out,
        env.probe = .ok (200, some ct) →
        ¬(ct = appPdf ∨ pyEndsWith dotPdf url = true) →
        ¬(pyEndsWith dotMd url = true ∨ pyEndsWith dotRst url = true ∨
          pyEndsWith dotIpynb (pyLowerStr url) = true) →
        env.render = .ok (aurl, html) →
        ¬ html.length < 3 →
        env.soupBody html = some bodyText →
        index_url env reindex url [] metadata = .ok out →
        out.lang = detect_language (env.detectRes bodyText)) := by
  refine ⟨rfl, ?_, ?_, ?_⟩
  · intro env reindex url lang metadata out hlang h
    simp only [index_url] at h
    split at h
    · cases h; rfl
    · split at h
      · cases h; rfl
      · split at h
        · cases h; rfl
        · split at h
          · split at h
            · cases h; rfl
            · exact ((submit_parts_spec _ _ _ _ _ _ _ _ h).1)
          · split at h
            · split at h
              · cases h
              · split at h
                · cases h
                · exact ((submit_parts_spec _ _ _ _ _ _ _ _ h).1)
            · split at h
              · cases h; rfl
              · split at h
                · cases h; rfl
                · split at h
                  · cases h; rfl
                  · exact ((submit_parts_spec _ _ _ _ _ _ _ _ h).1)
  · intro env d1 d2 reindex url lang metadata hlang
    simp only [index_url, submit_parts]
    split
    · rfl
    · split
      · rfl
      · split
        · rfl
        · split
          · rfl
          · split
            · rfl
            · split
              · rfl
              · split
                · rfl
                · rfl
  · intro env reindex url metadata ct aurl html bodyText out hpr hb hm hre hlen hbody h
    simp only [index_url] at h
    simp [hpr, hb, hm, hre, hlen, hbody] at h
    split at h
    · cases h; rfl
    · exact ((submit_parts_spec _ _ _ _ _ _ _ _ h).1)

/-- Witness for C10 at concrete environments: the initial state, a
sticky non-empty language, detector-independence, and the first
detection setting the language. -/
theorem detected_language_sticky_witness :
    initIndexer.detected_language = []
    ∧ ({ success := true, lang := ['x'], submitted := some docOneSec } : UrlOutcome).lang = ['x']
    ∧ index_url ({ envHtmlOne with detectRes := fun _ => .ok (some ['a']) } : UrlEnv) true ['u'] ['x'] []
        = index_url ({ envHtmlOne with detectRes := fun _ => .raised } : UrlEnv) true ['u'] ['x'] []
    ∧ ({ success := true, lang := ['f', 'r'], submitted := some docOneSec } : UrlOutcome).lang
        = detect_language (envDetectSet.detectRes ['b']) := by
  refine ⟨detected_language_sticky.1,
    detected_language_sticky.2.1 envHtmlOne true ['u'] ['x'] []
      { success := true, lang := ['x'], submitted := some docOneSec } (by decide) (by decide),
    detected_language_sticky.2.2.1 envHtmlOne (fun _ => .ok (some ['a'])) (fun _ => .raised)
      true ['u'] ['x'] [] (by decide),
    detected_language_sticky.2.2.2 envDetectSet true ['u'] [] htmlCT ['u'] ['a', 'b', 'c'] ['b']
      { success := true, lang := ['f', 'r'], submitted := some docOneSec }
      rfl (by decide) (by decide) rfl (by decide) rfl (by decide)⟩
